import Mathlib

/-!
Verification of the SimpleMicroservices resource core.

Shallow embedding of `src/main.py` together with the Pydantic models in
`src/models/allergy.py` and `src/models/medication.py`.  The models for
Person and Address (`models/person.py`, `models/address.py`) are not part of
the source tree; where they are needed they are modelled from the spec and
carry a doc comment saying so.

Modelling conventions:
* Python `UUID` values are modelled as `Nat` (only equality is used).
* Python `datetime` timestamps are modelled as `Nat` (only assignment,
  propagation and ordering are used).  Each HTTP request is processed at a
  single instant `now`, matching the sequential one-request-at-a-time model
  of the spec; every `datetime.utcnow()` evaluated during one request
  returns that instant.
* Python `date` values are modelled by their canonical `YYYY-MM-DD` string
  (`str(d)` on a `date` is exactly that string, and `str` is injective on
  dates, so equality of dates coincides with equality of the strings).
* The module-level dicts `persons`, `addresses`, `allergies`, `medications`
  are modelled by `Store`, an insertion-ordered association list with
  Python-dict update semantics: assigning to an existing key replaces the
  value in place, assigning to a fresh key appends.
* `raise HTTPException(...)` / a Pydantic `ValidationError` escaping the
  handler is modelled by `Except ApiError`; each endpoint returns the
  error-or-result together with the store as it is when the handler ends.
-/

/-- Python-dict-like insertion-ordered map from identifiers to records,
modelling the module-level dictionaries of `main.py`. -/
structure Store (α : Type) where
  entries : List (Nat × α)
deriving DecidableEq

namespace Store

/-- Lookup `d[k]` / `d.get(k)`: the value stored under `k`, if any. -/
def get? (s : Store α) (k : Nat) : Option α :=
  (s.entries.find? (fun e => e.1 == k)).map (fun e => e.2)

/-- Membership `k in d`: Python dict membership test. -/
def contains (s : Store α) (k : Nat) : Bool :=
  (s.get? k).isSome

/-- Assignment `d[k] = v`: Python dict assignment — replaces in place when the key is
present, appends otherwise (dicts preserve insertion order and an
assignment to an existing key keeps its position). -/
def set (s : Store α) (k : Nat) (v : α) : Store α :=
  if s.contains k then
    ⟨s.entries.map (fun e => if e.1 == k then (k, v) else e)⟩
  else
    ⟨s.entries ++ [(k, v)]⟩

/-- Values `list(d.values())`: the records in insertion order. -/
def values (s : Store α) : List α :=
  s.entries.map (fun e => e.2)

/-- The keys in insertion order. -/
def keys (s : Store α) : List Nat :=
  s.entries.map (fun e => e.1)

/-- The empty store. -/
def empty : Store α := ⟨[]⟩

end Store

/-- The failure modes of the handlers in `main.py`:
`notFound` = `HTTPException(404, ...)`,
`conflict` = `HTTPException(400, "... with this ID already exists")`,
`refViolation` = `HTTPException(400, "person_id does not exist")`,
`validationError` = a Pydantic `ValidationError` raised while constructing
the merged `*Read` record inside a PATCH handler. -/
inductive ApiError where
  | notFound
  | conflict
  | refViolation
  | validationError
deriving DecidableEq

/-- Whether the `Except` is a success (Python: the handler returned). -/
def exceptOk : Except ApiError α → Bool
  | .ok _ => true
  | .error _ => false

/-- Python `UUID` objects define neither `__bool__` nor `__len__`, so
`bool(u)` is `True` for every UUID; this models the truthiness test in
`getattr(x, "person_id", None) and ...` (the attribute is a required field,
hence always present). -/
def pyUuidTruthy (_ : Nat) : Bool := true

/-- Merge one field of a PATCH payload into a field that is **required**
(non-nullable) on the stored model: `none` = key absent from the payload
(`exclude_unset` drops it, stored value kept), `some none` = explicit JSON
null (accepted by the Update schema, but the `*Read` constructor then
rejects `None` for the non-nullable field: validation error), `some (some v)`
= explicit value. -/
def mergeRequired (cur : α) : Option (Option α) → Option α
  | none => some cur
  | some none => none
  | some (some v) => some v

/-- Merge one field of a PATCH payload into a field that is **nullable**
on the stored model: absent keeps the stored value, explicit null clears
it, explicit value overwrites it; construction never fails. -/
def mergeNullable (cur : Option α) : Option (Option α) → Option α
  | none => cur
  | some v => v

/-! ## Allergy (`src/models/allergy.py`) -/

/-- Python `AllergySeverity = Literal["mild", "moderate", "severe"]`. -/
inductive AllergySeverity where
  | mild
  | moderate
  | severe
deriving DecidableEq

/-- The string a severity value compares as (a `Literal` value is a `str`). -/
def severityStr : AllergySeverity → String
  | .mild => "mild"
  | .moderate => "moderate"
  | .severe => "severe"

/-- Python `AllergyType = Literal["drug", "food", "environment", "other"]`. -/
inductive AllergyType where
  | drug
  | food
  | environment
  | other
deriving DecidableEq

/-- The string an allergy-type value compares as. -/
def allergyTypeStr : AllergyType → String
  | .drug => "drug"
  | .food => "food"
  | .environment => "environment"
  | .other => "other"

/-- Creation payload `AllergyCreate` (= `AllergyBase`); `id` has a
`default_factory`, so by the time the handler sees the payload it always
carries an identifier (caller-supplied or freshly generated). -/
structure AllergyCreate where
  id : Nat
  person_id : Nat
  allergen : String
  allergy_type : AllergyType
  reaction : Option String
  severity : AllergySeverity
  noted_date : Option String
deriving DecidableEq

/-- Stored record `AllergyRead` (base fields plus timestamps). -/
structure AllergyRead where
  id : Nat
  person_id : Nat
  allergen : String
  allergy_type : AllergyType
  reaction : Option String
  severity : AllergySeverity
  noted_date : Option String
  created_at : Nat
  updated_at : Nat
deriving DecidableEq

/-- Construction `AllergyRead(**allergy.model_dump())`: both timestamp default factories
fire during the create request, at its instant `now`. -/
def AllergyRead.ofCreate (a : AllergyCreate) (now : Nat) : AllergyRead :=
  { id := a.id, person_id := a.person_id, allergen := a.allergen,
    allergy_type := a.allergy_type, reaction := a.reaction,
    severity := a.severity, noted_date := a.noted_date,
    created_at := now, updated_at := now }

/-- Update payload `AllergyUpdate`: every field `Optional[...] = None`, so every field may
be omitted; `model_dump(exclude_unset=True)` distinguishes omitted (`none`)
from explicitly-set (`some`), and an explicitly-set field may itself be
null (`some none`) or a value (`some (some v)`). -/
structure AllergyUpdate where
  allergen : Option (Option String) := none
  allergy_type : Option (Option AllergyType) := none
  reaction : Option (Option String) := none
  severity : Option (Option AllergySeverity) := none
  noted_date : Option (Option String) := none
deriving DecidableEq

/-- Merge `stored = allergies[id].model_dump(); stored.update(update.model_dump(
exclude_unset=True)); AllergyRead(**stored)`: the dump carries `id`,
`person_id`, `created_at` and `updated_at`, none of which the update dict
can touch, so they are copied through unchanged (in particular `updated_at`
keeps its pre-update value — no `utcnow()` occurs in this handler).
Re-validation fails (`none`) iff an explicit null was written into a
non-nullable field (`allergen`, `allergy_type`, `severity`). -/
def AllergyRead.applyUpdate (stored : AllergyRead) (u : AllergyUpdate) :
    Option AllergyRead :=
  match mergeRequired stored.allergen u.allergen,
        mergeRequired stored.allergy_type u.allergy_type,
        mergeRequired stored.severity u.severity with
  | some al, some ty, some sv =>
      some { stored with
        allergen := al, allergy_type := ty, severity := sv,
        reaction := mergeNullable stored.reaction u.reaction,
        noted_date := mergeNullable stored.noted_date u.noted_date }
  | _, _, _ => none

/-! ## Person (modelled from the spec) -/

/-- Modelled from the spec: `models/person.py` is not in the source tree.
One element of a Person's embedded Address-shaped sequence; `list_persons`
in `main.py` reads `addr.city` and `addr.country` off these elements. -/
structure EmbeddedAddress where
  city : String
  country : String
deriving DecidableEq

/-- Modelled from the spec: `models/person.py` is not in the source tree.
The stored Person record, with the fields `list_persons` filters on
(`uni`, `first_name`, `last_name`, `email`, `phone`, `birth_date`,
`addresses`) plus identifier and the timestamps every kind carries. -/
structure PersonRead where
  id : Nat
  uni : String
  first_name : String
  last_name : String
  email : String
  phone : String
  birth_date : Option String
  addresses : List EmbeddedAddress
  created_at : Nat
  updated_at : Nat
deriving DecidableEq

/-- Modelled from the spec: `models/person.py` is not in the source tree.
The creation payload; per the spec every create accepts an optional
caller-supplied identifier and otherwise generates one, so the payload the
handler sees always carries an `id`. -/
structure PersonCreate where
  id : Nat
  uni : String
  first_name : String
  last_name : String
  email : String
  phone : String
  birth_date : Option String
  addresses : List EmbeddedAddress
deriving DecidableEq

/-- Construction `PersonRead(**person.model_dump())` at the request instant `now`. -/
def PersonRead.ofCreate (p : PersonCreate) (now : Nat) : PersonRead :=
  { id := p.id, uni := p.uni, first_name := p.first_name,
    last_name := p.last_name, email := p.email, phone := p.phone,
    birth_date := p.birth_date, addresses := p.addresses,
    created_at := now, updated_at := now }

/-- Modelled from the spec: `models/person.py` is not in the source tree.
Tri-state partial-update payload over the mutable Person fields (identifier
and timestamps excluded, as for the kinds whose schemas are in the tree). -/
structure PersonUpdate where
  uni : Option (Option String) := none
  first_name : Option (Option String) := none
  last_name : Option (Option String) := none
  email : Option (Option String) := none
  phone : Option (Option String) := none
  birth_date : Option (Option String) := none
  addresses : Option (Option (List EmbeddedAddress)) := none
deriving DecidableEq

/-- The dump-update-revalidate merge of `update_person`, with the same
shape as the Allergy merge: required fields reject explicit null,
nullable `birth_date` accepts it, and `id`/`created_at`/`updated_at` are
copied through unchanged. -/
def PersonRead.applyUpdate (stored : PersonRead) (u : PersonUpdate) :
    Option PersonRead :=
  match mergeRequired stored.uni u.uni,
        mergeRequired stored.first_name u.first_name,
        mergeRequired stored.last_name u.last_name,
        mergeRequired stored.email u.email,
        mergeRequired stored.phone u.phone,
        mergeRequired stored.addresses u.addresses with
  | some un, some fn, some ln, some em, some ph, some ad =>
      some { stored with
        uni := un, first_name := fn, last_name := ln, email := em,
        phone := ph, addresses := ad,
        birth_date := mergeNullable stored.birth_date u.birth_date }
  | _, _, _, _, _, _ => none

/-- Python `str(x)` on an `Optional[date]`: `str(None)` is `"None"`,
`str(d)` is the canonical `YYYY-MM-DD` form (our date representation). -/
def pyStrOptDate : Option String → String
  | none => "None"
  | some d => d

/-! ## Address (modelled from the spec) -/

/-- Modelled from the spec: `models/address.py` is not in the source tree.
The stored Address record, with the fields `list_addresses` filters on
plus identifier and timestamps. -/
structure AddressRead where
  id : Nat
  street : String
  city : String
  state : String
  postal_code : String
  country : String
  created_at : Nat
  updated_at : Nat
deriving DecidableEq

/-- Modelled from the spec: `models/address.py` is not in the source tree.
The creation payload, identifier already resolved as for the other kinds. -/
structure AddressCreate where
  id : Nat
  street : String
  city : String
  state : String
  postal_code : String
  country : String
deriving DecidableEq

/-- Construction `AddressRead(**address.model_dump())` at the request instant `now`. -/
def AddressRead.ofCreate (a : AddressCreate) (now : Nat) : AddressRead :=
  { id := a.id, street := a.street, city := a.city, state := a.state,
    postal_code := a.postal_code, country := a.country,
    created_at := now, updated_at := now }

/-- Modelled from the spec: `models/address.py` is not in the source tree.
Tri-state partial-update payload over the Address fields. -/
structure AddressUpdate where
  street : Option (Option String) := none
  city : Option (Option String) := none
  state : Option (Option String) := none
  postal_code : Option (Option String) := none
  country : Option (Option String) := none
deriving DecidableEq

/-- The dump-update-revalidate merge of `update_address`; identifier and
timestamps are copied through from the stored record. -/
def AddressRead.applyUpdate (stored : AddressRead) (u : AddressUpdate) :
    Option AddressRead :=
  match mergeRequired stored.street u.street,
        mergeRequired stored.city u.city,
        mergeRequired stored.state u.state,
        mergeRequired stored.postal_code u.postal_code,
        mergeRequired stored.country u.country with
  | some st, some ci, some sa, some pc, some co =>
      some { stored with
        street := st, city := ci, state := sa, postal_code := pc,
        country := co }
  | _, _, _, _, _ => none

/-! ## Medication (`src/models/medication.py`) -/

/-- Python `DoseUnit = Literal["mg", "mcg", "g", "mL", "units", "puffs", "drops"]`. -/
inductive DoseUnit where
  | mg
  | mcg
  | g
  | mL
  | units
  | puffs
  | drops
deriving DecidableEq

/-- Python `Frequency = Literal["once_daily", "twice_daily", "three_times_daily",
"as_needed", "other"]`. -/
inductive Frequency where
  | once_daily
  | twice_daily
  | three_times_daily
  | as_needed
  | other
deriving DecidableEq

/-- The string a frequency value compares as. -/
def frequencyStr : Frequency → String
  | .once_daily => "once_daily"
  | .twice_daily => "twice_daily"
  | .three_times_daily => "three_times_daily"
  | .as_needed => "as_needed"
  | .other => "other"

/-- Creation payload `MedicationCreate` (= `MedicationBase`).  Python `float` dose values are
modelled atomically as `Int`: the code never computes with or compares
doses, it only stores and copies them. -/
structure MedicationCreate where
  id : Nat
  person_id : Nat
  name : String
  dose : Option Int
  dose_unit : Option DoseUnit
  frequency : Frequency
  instructions : Option String
  start_date : Option String
  end_date : Option String
  is_current : Bool
deriving DecidableEq

/-- Stored record `MedicationRead` (base fields plus timestamps). -/
structure MedicationRead where
  id : Nat
  person_id : Nat
  name : String
  dose : Option Int
  dose_unit : Option DoseUnit
  frequency : Frequency
  instructions : Option String
  start_date : Option String
  end_date : Option String
  is_current : Bool
  created_at : Nat
  updated_at : Nat
deriving DecidableEq

/-- Construction `MedicationRead(**med.model_dump())` at the request instant `now`. -/
def MedicationRead.ofCreate (m : MedicationCreate) (now : Nat) : MedicationRead :=
  { id := m.id, person_id := m.person_id, name := m.name, dose := m.dose,
    dose_unit := m.dose_unit, frequency := m.frequency,
    instructions := m.instructions, start_date := m.start_date,
    end_date := m.end_date, is_current := m.is_current,
    created_at := now, updated_at := now }

/-- Update payload `MedicationUpdate`: every field `Optional[...] = None`, tri-state as for
`AllergyUpdate`; `id`, `person_id`, `created_at`, `updated_at` are absent
from the schema. -/
structure MedicationUpdate where
  name : Option (Option String) := none
  dose : Option (Option Int) := none
  dose_unit : Option (Option DoseUnit) := none
  frequency : Option (Option Frequency) := none
  instructions : Option (Option String) := none
  start_date : Option (Option String) := none
  end_date : Option (Option String) := none
  is_current : Option (Option Bool) := none
deriving DecidableEq

/-- The dump-update-revalidate merge of `update_medication`: `name`,
`frequency` and `is_current` are non-nullable on `MedicationRead`, the rest
are nullable; `id`, `person_id`, `created_at`, `updated_at` are copied
through from the stored record (no `utcnow()` in this handler either). -/
def MedicationRead.applyUpdate (stored : MedicationRead) (u : MedicationUpdate) :
    Option MedicationRead :=
  match mergeRequired stored.name u.name,
        mergeRequired stored.frequency u.frequency,
        mergeRequired stored.is_current u.is_current with
  | some nm, some fr, some ic =>
      some { stored with
        name := nm, frequency := fr, is_current := ic,
        dose := mergeNullable stored.dose u.dose,
        dose_unit := mergeNullable stored.dose_unit u.dose_unit,
        instructions := mergeNullable stored.instructions u.instructions,
        start_date := mergeNullable stored.start_date u.start_date,
        end_date := mergeNullable stored.end_date u.end_date }
  | _, _, _ => none

/-! ## The endpoints of `main.py`

Each handler is a function of the store(s) it reads and writes; it returns
the response (`Except ApiError` of the response model) paired with the
store as the handler leaves it.  A `raise` before the assignment statement
returns the store untouched, exactly as in the Python. -/

/-- One step of the uniform filtering pattern of every list handler:
`if q is not None: results = [r for r in results if pred(r, q)]`. -/
def pyFilter (o : Option β) (p : β → α → Bool) (l : List α) : List α :=
  match o with
  | none => l
  | some q => l.filter (p q)

/-- Whether a record passes one optional equality predicate: an absent
query parameter constrains nothing. -/
def optMatches (o : Option β) (p : β → α → Bool) (a : α) : Bool :=
  match o with
  | none => true
  | some q => p q a

/-- Handler for `POST /addresses` (`create_address`). -/
def create_address (addresses : Store AddressRead) (address : AddressCreate)
    (now : Nat) : Except ApiError AddressRead × Store AddressRead :=
  if addresses.contains address.id then
    (.error .conflict, addresses)
  else
    let r := AddressRead.ofCreate address now
    (.ok r, addresses.set address.id r)

/-- Handler for `GET /addresses` (`list_addresses`): sequential comprehension filters. -/
def list_addresses (addresses : Store AddressRead)
    (street city state postal_code country : Option String) :
    List AddressRead :=
  let results := addresses.values
  let results := pyFilter street (fun q a => a.street == q) results
  let results := pyFilter city (fun q a => a.city == q) results
  let results := pyFilter state (fun q a => a.state == q) results
  let results := pyFilter postal_code (fun q a => a.postal_code == q) results
  let results := pyFilter country (fun q a => a.country == q) results
  results

/-- Handler for `GET /addresses/\x7baddress_id\x7d` (`get_address`). -/
def get_address (addresses : Store AddressRead) (address_id : Nat) :
    Except ApiError AddressRead :=
  match addresses.get? address_id with
  | none => .error .notFound
  | some a => .ok a

/-- Handler for `PATCH /addresses/\x7baddress_id\x7d` (`update_address`). -/
def update_address (addresses : Store AddressRead) (address_id : Nat)
    (update : AddressUpdate) :
    Except ApiError AddressRead × Store AddressRead :=
  match addresses.get? address_id with
  | none => (.error .notFound, addresses)
  | some stored =>
      match stored.applyUpdate update with
      | none => (.error .validationError, addresses)
      | some merged => (.ok merged, addresses.set address_id merged)

/-- Handler for `POST /persons` (`create_person`): **no duplicate-identifier check** —
the assignment `persons[person_read.id] = person_read` overwrites whatever
was stored under that identifier. -/
def create_person (persons : Store PersonRead) (person : PersonCreate)
    (now : Nat) : Except ApiError PersonRead × Store PersonRead :=
  let person_read := PersonRead.ofCreate person now
  (.ok person_read, persons.set person_read.id person_read)

/-- Handler for `GET /persons` (`list_persons`): sequential comprehension filters; the
`city` and `country` filters are existential over the embedded address
sequence (`any(addr.city == city for addr in p.addresses)`). -/
def list_persons (persons : Store PersonRead)
    (uni first_name last_name email phone birth_date city country :
      Option String) : List PersonRead :=
  let results := persons.values
  let results := pyFilter uni (fun q p => p.uni == q) results
  let results := pyFilter first_name (fun q p => p.first_name == q) results
  let results := pyFilter last_name (fun q p => p.last_name == q) results
  let results := pyFilter email (fun q p => p.email == q) results
  let results := pyFilter phone (fun q p => p.phone == q) results
  let results := pyFilter birth_date (fun q p => pyStrOptDate p.birth_date == q) results
  let results := pyFilter city
    (fun q p => p.addresses.any (fun addr => addr.city == q)) results
  let results := pyFilter country
    (fun q p => p.addresses.any (fun addr => addr.country == q)) results
  results

/-- Handler for `GET /persons/\x7bperson_id\x7d` (`get_person`). -/
def get_person (persons : Store PersonRead) (person_id : Nat) :
    Except ApiError PersonRead :=
  match persons.get? person_id with
  | none => .error .notFound
  | some p => .ok p

/-- Handler for `PATCH /persons/\x7bperson_id\x7d` (`update_person`). -/
def update_person (persons : Store PersonRead) (person_id : Nat)
    (update : PersonUpdate) :
    Except ApiError PersonRead × Store PersonRead :=
  match persons.get? person_id with
  | none => (.error .notFound, persons)
  | some stored =>
      match stored.applyUpdate update with
      | none => (.error .validationError, persons)
      | some merged => (.ok merged, persons.set person_id merged)

/-- Handler for `POST /allergies` (`create_allergy`): the owner-reference check fires
first (`getattr(allergy, "person_id", None)` is the required UUID, always
truthy), then the duplicate-identifier check. -/
def create_allergy (persons : Store PersonRead)
    (allergies : Store AllergyRead) (allergy : AllergyCreate) (now : Nat) :
    Except ApiError AllergyRead × Store AllergyRead :=
  if pyUuidTruthy allergy.person_id && !(persons.contains allergy.person_id) then
    (.error .refViolation, allergies)
  else if allergies.contains allergy.id then
    (.error .conflict, allergies)
  else
    let r := AllergyRead.ofCreate allergy now
    (.ok r, allergies.set allergy.id r)

/-- Handler for `GET /allergies` (`list_allergies`): the `noted_date` filter guards on
truthiness of the stored value (`a.noted_date and str(a.noted_date) == q`),
so a record with a null `noted_date` never matches that filter; the
categorical filters compare the `Literal` strings. -/
def list_allergies (allergies : Store AllergyRead) (person_id : Option Nat)
    (allergen allergy_type severity noted_date : Option String) :
    List AllergyRead :=
  let results := allergies.values
  let results := pyFilter person_id (fun q a => a.person_id == q) results
  let results := pyFilter allergen (fun q a => a.allergen == q) results
  let results := pyFilter allergy_type
    (fun q a => allergyTypeStr a.allergy_type == q) results
  let results := pyFilter severity
    (fun q a => severityStr a.severity == q) results
  let results := pyFilter noted_date
    (fun q a => match a.noted_date with
      | none => false
      | some d => d == q) results
  results

/-- Handler for `GET /allergies/\x7ballergy_id\x7d` (`get_allergy`). -/
def get_allergy (allergies : Store AllergyRead) (allergy_id : Nat) :
    Except ApiError AllergyRead :=
  match allergies.get? allergy_id with
  | none => .error .notFound
  | some a => .ok a

/-- Handler for `PATCH /allergies/\x7ballergy_id\x7d` (`update_allergy`). -/
def update_allergy (allergies : Store AllergyRead) (allergy_id : Nat)
    (update : AllergyUpdate) :
    Except ApiError AllergyRead × Store AllergyRead :=
  match allergies.get? allergy_id with
  | none => (.error .notFound, allergies)
  | some stored =>
      match stored.applyUpdate update with
      | none => (.error .validationError, allergies)
      | some merged => (.ok merged, allergies.set allergy_id merged)

/-- Handler for `POST /medications` (`create_medication`): same shape as
`create_allergy`. -/
def create_medication (persons : Store PersonRead)
    (medications : Store MedicationRead) (med : MedicationCreate)
    (now : Nat) : Except ApiError MedicationRead × Store MedicationRead :=
  if pyUuidTruthy med.person_id && !(persons.contains med.person_id) then
    (.error .refViolation, medications)
  else if medications.contains med.id then
    (.error .conflict, medications)
  else
    let r := MedicationRead.ofCreate med now
    (.ok r, medications.set med.id r)

/-- Handler for `GET /medications` (`list_medications`): `start_date` and `end_date`
filters guard on truthiness of the stored value, so null dates never
match. -/
def list_medications (medications : Store MedicationRead)
    (person_id : Option Nat) (name frequency : Option String)
    (is_current : Option Bool) (start_date end_date : Option String) :
    List MedicationRead :=
  let results := medications.values
  let results := pyFilter person_id (fun q m => m.person_id == q) results
  let results := pyFilter name (fun q m => m.name == q) results
  let results := pyFilter frequency
    (fun q m => frequencyStr m.frequency == q) results
  let results := pyFilter is_current (fun q m => m.is_current == q) results
  let results := pyFilter start_date
    (fun q m => match m.start_date with
      | none => false
      | some d => d == q) results
  let results := pyFilter end_date
    (fun q m => match m.end_date with
      | none => false
      | some d => d == q) results
  results

/-- Handler for `GET /medications/\x7bmedication_id\x7d` (`get_medication`). -/
def get_medication (medications : Store MedicationRead)
    (medication_id : Nat) : Except ApiError MedicationRead :=
  match medications.get? medication_id with
  | none => .error .notFound
  | some m => .ok m

/-- Handler for `PATCH /medications/\x7bmedication_id\x7d` (`update_medication`). -/
def update_medication (medications : Store MedicationRead)
    (medication_id : Nat) (update : MedicationUpdate) :
    Except ApiError MedicationRead × Store MedicationRead :=
  match medications.get? medication_id with
  | none => (.error .notFound, medications)
  | some stored =>
      match stored.applyUpdate update with
      | none => (.error .validationError, medications)
      | some merged => (.ok merged, medications.set medication_id merged)

/-! ## The whole application state and its operation alphabet

`step` runs one mutating request against the four stores; a request that
fails leaves every store as the handler left it (unchanged, as the handlers
raise before assigning). -/

/-- The four module-level dictionaries of `main.py` together. -/
structure AppState where
  persons : Store PersonRead
  addresses : Store AddressRead
  allergies : Store AllergyRead
  medications : Store MedicationRead
deriving DecidableEq

/-- One mutating request (the read-only GET handlers do not touch state). -/
inductive Op where
  | opCreatePerson (p : PersonCreate) (now : Nat)
  | opUpdatePerson (id : Nat) (u : PersonUpdate)
  | opCreateAddress (a : AddressCreate) (now : Nat)
  | opUpdateAddress (id : Nat) (u : AddressUpdate)
  | opCreateAllergy (a : AllergyCreate) (now : Nat)
  | opUpdateAllergy (id : Nat) (u : AllergyUpdate)
  | opCreateMedication (m : MedicationCreate) (now : Nat)
  | opUpdateMedication (id : Nat) (u : MedicationUpdate)

/-- Execute one request against the application state. -/
def step (s : AppState) : Op → AppState
  | .opCreatePerson p now => { s with persons := (create_person s.persons p now).2 }
  | .opUpdatePerson id u => { s with persons := (update_person s.persons id u).2 }
  | .opCreateAddress a now => { s with addresses := (create_address s.addresses a now).2 }
  | .opUpdateAddress id u => { s with addresses := (update_address s.addresses id u).2 }
  | .opCreateAllergy a now =>
      { s with allergies := (create_allergy s.persons s.allergies a now).2 }
  | .opUpdateAllergy id u => { s with allergies := (update_allergy s.allergies id u).2 }
  | .opCreateMedication m now =>
      { s with medications := (create_medication s.persons s.medications m now).2 }
  | .opUpdateMedication id u =>
      { s with medications := (update_medication s.medications id u).2 }

/-- Execute a sequence of requests in order. -/
def runOps (s : AppState) (ops : List Op) : AppState :=
  ops.foldl step s

/-! ## Store lemmas -/

/-- Writing to a key that is already present keeps the key sequence (and
hence every record's position) unchanged. -/
theorem Store.keys_set_of_contains {α : Type} (s : Store α) (k : Nat) (v : α)
    (h : s.contains k = true) : (s.set k v).keys = s.keys := by
  unfold Store.set
  rw [if_pos h]
  unfold Store.keys
  simp only [List.map_map]
  apply List.map_congr_left
  intro e _
  by_cases hk : e.1 = k
  · simp [Function.comp, hk]
  · simp [Function.comp, hk]

/-- Writing to a fresh key appends it to the key sequence. -/
theorem Store.keys_set_of_not_contains {α : Type} (s : Store α) (k : Nat)
    (v : α) (h : s.contains k = false) :
    (s.set k v).keys = s.keys ++ [k] := by
  unfold Store.set
  rw [if_neg (by simp [h])]
  unfold Store.keys
  simp

/-- Any dict assignment leaves the old key sequence as an
order-preserving subsequence (in fact a prefix) of the new one. -/
theorem Store.keys_sublist_set {α : Type} (s : Store α) (k : Nat) (v : α) :
    s.keys.Sublist ((s.set k v).keys) := by
  by_cases h : s.contains k = true
  · rw [Store.keys_set_of_contains s k v h]
  · rw [Store.keys_set_of_not_contains s k v (by simpa using h)]
    exact List.sublist_append_left _ _

/-- Replacing the value under `k` rewrites the matching entry to `(k, v)`
and leaves the rest alone, at the level of `find?`. -/
theorem find?_map_replace (k : Nat) (v : α) (l : List (Nat × α)) :
    (l.map (fun e => if e.1 == k then (k, v) else e)).find? (fun e => e.1 == k)
      = (l.find? (fun e => e.1 == k)).map (fun _ => (k, v)) := by
  induction l with
  | nil => rfl
  | cons e l ih =>
      by_cases h : e.1 = k
      · simp [h]
      · simp only [List.map_cons]
        rw [List.find?_cons_of_neg, List.find?_cons_of_neg, ih]
        · simp [h]
        · simp [h]

/-- Reading back the key just written returns the record just written. -/
theorem Store.get?_set_self {α : Type} (s : Store α) (k : Nat) (v : α) :
    (s.set k v).get? k = some v := by
  by_cases h : s.contains k
  · unfold Store.set
    rw [if_pos h]
    unfold Store.get?
    rw [find?_map_replace]
    unfold Store.contains Store.get? at h
    cases hf : s.entries.find? (fun e => e.1 == k) with
    | none => rw [hf] at h; simp at h
    | some e => rfl
  · unfold Store.set
    rw [if_neg h]
    unfold Store.get?
    rw [List.find?_append]
    have hn : s.entries.find? (fun e => e.1 == k) = none := by
      unfold Store.contains Store.get? at h
      cases hf : s.entries.find? (fun e => e.1 == k) with
      | none => rfl
      | some e => rw [hf] at h; simp at h
    rw [hn]
    simp

/-- A successful lookup implies dict membership. -/
theorem Store.contains_of_get?_some {α : Type} {s : Store α} {k : Nat}
    {a : α} (h : s.get? k = some a) : s.contains k = true := by
  unfold Store.contains
  rw [h]
  rfl

/-- The PATCH handlers only ever write back under the identifier they
looked up, so they never add, remove or reorder keys. -/
theorem update_address_keys (st : Store AddressRead) (id : Nat)
    (u : AddressUpdate) : ((update_address st id u).2).keys = st.keys := by
  unfold update_address
  split
  · rfl
  · rename_i stored heq
    split
    · rfl
    · rename_i merged hm
      exact Store.keys_set_of_contains st id merged
        (Store.contains_of_get?_some heq)

/-- Key preservation for `update_person` (same shape). -/
theorem update_person_keys (st : Store PersonRead) (id : Nat)
    (u : PersonUpdate) : ((update_person st id u).2).keys = st.keys := by
  unfold update_person
  split
  · rfl
  · rename_i stored heq
    split
    · rfl
    · rename_i merged hm
      exact Store.keys_set_of_contains st id merged
        (Store.contains_of_get?_some heq)

/-- Key preservation for `update_allergy` (same shape). -/
theorem update_allergy_keys (st : Store AllergyRead) (id : Nat)
    (u : AllergyUpdate) : ((update_allergy st id u).2).keys = st.keys := by
  unfold update_allergy
  split
  · rfl
  · rename_i stored heq
    split
    · rfl
    · rename_i merged hm
      exact Store.keys_set_of_contains st id merged
        (Store.contains_of_get?_some heq)

/-- Key preservation for `update_medication` (same shape). -/
theorem update_medication_keys (st : Store MedicationRead) (id : Nat)
    (u : MedicationUpdate) : ((update_medication st id u).2).keys = st.keys := by
  unfold update_medication
  split
  · rfl
  · rename_i stored heq
    split
    · rfl
    · rename_i merged hm
      exact Store.keys_set_of_contains st id merged
        (Store.contains_of_get?_some heq)

/-- The create handlers leave the old key sequence as an order-preserving
subsequence of the new one (they append at most one key, or fail leaving
the store untouched; `create_person` may also overwrite in place). -/
theorem create_person_keys (st : Store PersonRead) (p : PersonCreate)
    (now : Nat) : st.keys.Sublist (((create_person st p now).2).keys) := by
  unfold create_person
  exact Store.keys_sublist_set st _ _

/-- Key monotonicity for `create_address`. -/
theorem create_address_keys (st : Store AddressRead) (a : AddressCreate)
    (now : Nat) : st.keys.Sublist (((create_address st a now).2).keys) := by
  unfold create_address
  by_cases h : st.contains a.id
  · rw [if_pos h]
  · rw [if_neg h]
    exact Store.keys_sublist_set st _ _

/-- Key monotonicity for `create_allergy`. -/
theorem create_allergy_keys (persons : Store PersonRead)
    (st : Store AllergyRead) (a : AllergyCreate) (now : Nat) :
    st.keys.Sublist (((create_allergy persons st a now).2).keys) := by
  unfold create_allergy
  by_cases hp : pyUuidTruthy a.person_id && !(persons.contains a.person_id)
  · rw [if_pos hp]
  · rw [if_neg hp]
    by_cases h : st.contains a.id
    · rw [if_pos h]
    · rw [if_neg h]
      exact Store.keys_sublist_set st _ _

/-- Key monotonicity for `create_medication`. -/
theorem create_medication_keys (persons : Store PersonRead)
    (st : Store MedicationRead) (m : MedicationCreate) (now : Nat) :
    st.keys.Sublist (((create_medication persons st m now).2).keys) := by
  unfold create_medication
  by_cases hp : pyUuidTruthy m.person_id && !(persons.contains m.person_id)
  · rw [if_pos hp]
  · rw [if_neg hp]
    by_cases h : st.contains m.id
    · rw [if_pos h]
    · rw [if_neg h]
      exact Store.keys_sublist_set st _ _

/-- One request never removes or reorders existing keys in any store. -/
theorem step_keys_mono (s : AppState) (op : Op) :
    s.persons.keys.Sublist ((step s op).persons.keys) ∧
    s.addresses.keys.Sublist ((step s op).addresses.keys) ∧
    s.allergies.keys.Sublist ((step s op).allergies.keys) ∧
    s.medications.keys.Sublist ((step s op).medications.keys) := by
  cases op with
  | opCreatePerson p now =>
      exact ⟨create_person_keys s.persons p now, List.Sublist.refl _,
        List.Sublist.refl _, List.Sublist.refl _⟩
  | opUpdatePerson id u =>
      refine ⟨?_, List.Sublist.refl _, List.Sublist.refl _, List.Sublist.refl _⟩
      rw [show (step s (.opUpdatePerson id u)).persons
        = (update_person s.persons id u).2 from rfl]
      rw [update_person_keys]
  | opCreateAddress a now =>
      exact ⟨List.Sublist.refl _, create_address_keys s.addresses a now,
        List.Sublist.refl _, List.Sublist.refl _⟩
  | opUpdateAddress id u =>
      refine ⟨List.Sublist.refl _, ?_, List.Sublist.refl _, List.Sublist.refl _⟩
      rw [show (step s (.opUpdateAddress id u)).addresses
        = (update_address s.addresses id u).2 from rfl]
      rw [update_address_keys]
  | opCreateAllergy a now =>
      exact ⟨List.Sublist.refl _, List.Sublist.refl _,
        create_allergy_keys s.persons s.allergies a now, List.Sublist.refl _⟩
  | opUpdateAllergy id u =>
      refine ⟨List.Sublist.refl _, List.Sublist.refl _, ?_, List.Sublist.refl _⟩
      rw [show (step s (.opUpdateAllergy id u)).allergies
        = (update_allergy s.allergies id u).2 from rfl]
      rw [update_allergy_keys]
  | opCreateMedication m now =>
      exact ⟨List.Sublist.refl _, List.Sublist.refl _, List.Sublist.refl _,
        create_medication_keys s.persons s.medications m now⟩
  | opUpdateMedication id u =>
      refine ⟨List.Sublist.refl _, List.Sublist.refl _, List.Sublist.refl _, ?_⟩
      rw [show (step s (.opUpdateMedication id u)).medications
        = (update_medication s.medications id u).2 from rfl]
      rw [update_medication_keys]

/-- Over any request sequence, every store's key sequence only grows at
the end: the old keys stay, in their old order and positions. -/
theorem runOps_keys_mono (s : AppState) (ops : List Op) :
    s.persons.keys.Sublist ((runOps s ops).persons.keys) ∧
    s.addresses.keys.Sublist ((runOps s ops).addresses.keys) ∧
    s.allergies.keys.Sublist ((runOps s ops).allergies.keys) ∧
    s.medications.keys.Sublist ((runOps s ops).medications.keys) := by
  induction ops generalizing s with
  | nil =>
      exact ⟨List.Sublist.refl _, List.Sublist.refl _, List.Sublist.refl _,
        List.Sublist.refl _⟩
  | cons op ops ih =>
      have h1 := step_keys_mono s op
      have h2 := ih (step s op)
      exact ⟨h1.1.trans h2.1, h1.2.1.trans h2.2.1,
        h1.2.2.1.trans h2.2.2.1, h1.2.2.2.trans h2.2.2.2⟩

/-- One optional filter step never grows the list and keeps its order. -/
theorem pyFilter_sublist (o : Option β) (p : β → α → Bool) (l : List α) :
    (pyFilter o p l).Sublist l := by
  cases o with
  | none => exact List.Sublist.refl l
  | some q => exact List.filter_sublist l

/-- Membership after one optional filter step: in the input and, when the
parameter is supplied, passing its predicate. -/
theorem mem_pyFilter (o : Option β) (p : β → α → Bool) (l : List α) (a : α) :
    a ∈ pyFilter o p l ↔ a ∈ l ∧ optMatches o p a = true := by
  cases o with
  | none => simp [pyFilter, optMatches]
  | some q => simp [pyFilter, optMatches, List.mem_filter]

/-- The conjunction of the supplied equality predicates of
`list_allergies`, spelled out per the spec's conjunctive-filter semantics. -/
def allergyMatches (person_id : Option Nat)
    (allergen allergy_type severity noted_date : Option String)
    (a : AllergyRead) : Bool :=
  optMatches person_id (fun q a => a.person_id == q) a &&
  optMatches allergen (fun q a => a.allergen == q) a &&
  optMatches allergy_type (fun q a => allergyTypeStr a.allergy_type == q) a &&
  optMatches severity (fun q a => severityStr a.severity == q) a &&
  optMatches noted_date
    (fun q a => match a.noted_date with
      | none => false
      | some d => d == q) a

/-- The conjunction of the supplied equality predicates of
`list_medications`, spelled out per the spec's conjunctive-filter
semantics. -/
def medicationMatches (person_id : Option Nat)
    (name frequency : Option String) (is_current : Option Bool)
    (start_date end_date : Option String) (m : MedicationRead) : Bool :=
  optMatches person_id (fun q m => m.person_id == q) m &&
  optMatches name (fun q m => m.name == q) m &&
  optMatches frequency (fun q m => frequencyStr m.frequency == q) m &&
  optMatches is_current (fun q m => m.is_current == q) m &&
  optMatches start_date
    (fun q m => match m.start_date with
      | none => false
      | some d => d == q) m &&
  optMatches end_date
    (fun q m => match m.end_date with
      | none => false
      | some d => d == q) m

/-! ## Concrete sample data, used to instantiate the theorems -/

/-- A sample stored Person (owner of the sample dependents), with two
embedded addresses in NYC and SF. -/
def samplePerson : PersonRead :=
  { id := 7, uni := "ab1", first_name := "Ada", last_name := "Byron",
    email := "ab@x.io", phone := "555", birth_date := some "1990-01-02",
    addresses := [⟨"NYC", "US"⟩, ⟨"SF", "US"⟩],
    created_at := 0, updated_at := 0 }

/-- A Person store holding exactly `samplePerson`. -/
def personsOne : Store PersonRead := ⟨[(7, samplePerson)]⟩

/-- A create payload clashing with `samplePerson`'s identifier. -/
def clashingPersonCreate : PersonCreate :=
  { id := 7, uni := "zz9", first_name := "Eve", last_name := "Crack",
    email := "e@x.io", phone := "999", birth_date := none, addresses := [] }

/-- A sample Allergy create payload owned by `samplePerson`. -/
def sampleAllergyCreate : AllergyCreate :=
  { id := 1, person_id := 7, allergen := "Peanuts", allergy_type := .food,
    reaction := some "Hives", severity := .severe,
    noted_date := some "2023-05-20" }

/-- A sample stored Allergy (severity `severe`, timestamps 5). -/
def sampleAllergy : AllergyRead :=
  { id := 1, person_id := 7, allergen := "Peanuts", allergy_type := .food,
    reaction := none, severity := .severe, noted_date := none,
    created_at := 5, updated_at := 5 }

/-- An Allergy store holding exactly `sampleAllergy`. -/
def allergiesOne : Store AllergyRead := ⟨[(1, sampleAllergy)]⟩

/-- A sample Address create payload. -/
def sampleAddressCreate : AddressCreate :=
  { id := 2, street := "1 Main", city := "NYC", state := "NY",
    postal_code := "10001", country := "US" }

/-- The sample Address as stored at instant 3. -/
def sampleAddress : AddressRead := AddressRead.ofCreate sampleAddressCreate 3

/-- An Address store holding exactly `sampleAddress`. -/
def addressesOne : Store AddressRead := ⟨[(2, sampleAddress)]⟩

/-- A sample Medication create payload owned by `samplePerson`. -/
def sampleMedCreate : MedicationCreate :=
  { id := 4, person_id := 7, name := "Loratadine", dose := some 10,
    dose_unit := some .mg, frequency := .once_daily, instructions := none,
    start_date := some "2025-03-01", end_date := none, is_current := true }

/-- The sample Medication as stored at instant 3. -/
def sampleMed : MedicationRead := MedicationRead.ofCreate sampleMedCreate 3

/-- A Medication store holding exactly `sampleMed`. -/
def medicationsOne : Store MedicationRead := ⟨[(4, sampleMed)]⟩

/-! ## C1 — duplicate caller-supplied identifier on create -/

/-- C1 (counterexample): for the Person kind the claim fails — `main.py`'s
`create_person` performs no duplicate check, so a create whose
caller-supplied identifier is already present succeeds (no Conflict) and
replaces the previously stored record. -/
theorem c1_person_overwrite_counterexample :
    exceptOk (create_person personsOne clashingPersonCreate 10).1 = true ∧
    (create_person personsOne clashingPersonCreate 10).2.get? 7
      ≠ some samplePerson := by
  decide

/-- C1 (amended): for Address — and for Allergy and Medication whose owner
reference resolves (otherwise the referential check fires first) — a create
whose caller-supplied identifier is already present fails with Conflict and
returns the store unchanged; `create_person`, however, performs no
duplicate check: it always succeeds and writes the new record over
whatever that identifier held. -/
theorem c1_duplicate_id_conflict :
    (∀ (st : Store AddressRead) (a : AddressCreate) (now : Nat),
      st.contains a.id = true →
      create_address st a now = (.error .conflict, st)) ∧
    (∀ (persons : Store PersonRead) (st : Store AllergyRead)
      (a : AllergyCreate) (now : Nat),
      persons.contains a.person_id = true → st.contains a.id = true →
      create_allergy persons st a now = (.error .conflict, st)) ∧
    (∀ (persons : Store PersonRead) (st : Store MedicationRead)
      (m : MedicationCreate) (now : Nat),
      persons.contains m.person_id = true → st.contains m.id = true →
      create_medication persons st m now = (.error .conflict, st)) ∧
    (∀ (st : Store PersonRead) (p : PersonCreate) (now : Nat),
      (create_person st p now).1 = .ok (PersonRead.ofCreate p now) ∧
      (create_person st p now).2 = st.set p.id (PersonRead.ofCreate p now)) := by
  refine ⟨?_, ?_, ?_, ?_⟩
  · intro st a now h
    unfold create_address
    rw [if_pos h]
  · intro persons st a now hp h
    unfold create_allergy
    rw [if_neg (by simp [pyUuidTruthy, hp]), if_pos h]
  · intro persons st m now hp h
    unfold create_medication
    rw [if_neg (by simp [pyUuidTruthy, hp]), if_pos h]
  · intro st p now
    exact ⟨rfl, rfl⟩

/-- C1 (witness): the amended claim applied to concrete duplicate creates
of each checked kind. -/
theorem c1_duplicate_id_conflict_witness :
    create_address addressesOne sampleAddressCreate 10
      = (.error .conflict, addressesOne) ∧
    create_allergy personsOne allergiesOne sampleAllergyCreate 10
      = (.error .conflict, allergiesOne) ∧
    create_medication personsOne medicationsOne sampleMedCreate 10
      = (.error .conflict, medicationsOne) :=
  ⟨c1_duplicate_id_conflict.1 addressesOne sampleAddressCreate 10 (by decide),
   c1_duplicate_id_conflict.2.1 personsOne allergiesOne sampleAllergyCreate 10
     (by decide) (by decide),
   c1_duplicate_id_conflict.2.2.1 personsOne medicationsOne sampleMedCreate 10
     (by decide) (by decide)⟩

/-! ## C2 — `updated_at` on merge (code bug: never refreshed) -/

/-- C2 (code behaviour at the failing input): the PATCH handler contains no
`utcnow()` call at all — the merged record keeps the pre-update
`updated_at` (5) no matter when the merge runs, contradicting the claim
that `updated_at` equals the time of the merge.  The merge itself
succeeds and is stored. -/
theorem c2_updated_at_not_refreshed :
    exceptOk (update_allergy allergiesOne 1
      { reaction := some (some "Rash") }).1 = true ∧
    (update_allergy allergiesOne 1 { reaction := some (some "Rash") }).2.get? 1
      = some { sampleAllergy with reaction := some "Rash" } ∧
    sampleAllergy.updated_at = 5 ∧
    ({ sampleAllergy with reaction := some "Rash" } : AllergyRead).updated_at
      = 5 := by
  decide

/-! ## C3 — tri-state partial-update merge -/

/-- C3: fields absent from the payload keep their stored values; fields
present in the payload take the payload's value, an explicit null included
(for nullable targets); concretely, on any stored Allergy the payload
setting only `reaction` to `"Rash"` changes only `reaction` (severity, in
particular a `severe` one, is untouched), the payload setting `reaction`
to explicit null clears it — a different result from the empty payload,
which changes nothing. -/
theorem c3_tristate_merge :
    (∀ (stored : AllergyRead),
      stored.applyUpdate { reaction := some (some "Rash") }
        = some { stored with reaction := some "Rash" } ∧
      stored.applyUpdate { reaction := some none }
        = some { stored with reaction := none } ∧
      stored.applyUpdate {} = some stored) ∧
    (∀ (stored merged : AllergyRead) (u : AllergyUpdate),
      stored.applyUpdate u = some merged →
      (u.allergen = none → merged.allergen = stored.allergen) ∧
      (∀ v, u.allergen = some (some v) → merged.allergen = v) ∧
      (u.allergy_type = none → merged.allergy_type = stored.allergy_type) ∧
      (∀ v, u.allergy_type = some (some v) → merged.allergy_type = v) ∧
      (u.severity = none → merged.severity = stored.severity) ∧
      (∀ v, u.severity = some (some v) → merged.severity = v) ∧
      (u.reaction = none → merged.reaction = stored.reaction) ∧
      (∀ v, u.reaction = some v → merged.reaction = v) ∧
      (u.noted_date = none → merged.noted_date = stored.noted_date) ∧
      (∀ v, u.noted_date = some v → merged.noted_date = v)) := by
  constructor
  · intro stored
    exact ⟨rfl, rfl, rfl⟩
  · intro stored merged u h
    unfold AllergyRead.applyUpdate at h
    split at h
    next al ty sv hal hty hsv =>
      injection h with h
      subst h
      refine ⟨?_, ?_, ?_, ?_, ?_, ?_, ?_, ?_, ?_, ?_⟩
      · intro hu
        rw [hu] at hal
        simp [mergeRequired] at hal
        simp [hal]
      · intro v hu
        rw [hu] at hal
        simp [mergeRequired] at hal
        simp [hal]
      · intro hu
        rw [hu] at hty
        simp [mergeRequired] at hty
        simp [hty]
      · intro v hu
        rw [hu] at hty
        simp [mergeRequired] at hty
        simp [hty]
      · intro hu
        rw [hu] at hsv
        simp [mergeRequired] at hsv
        simp [hsv]
      · intro v hu
        rw [hu] at hsv
        simp [mergeRequired] at hsv
        simp [hsv]
      · intro hu
        simp [hu, mergeNullable]
      · intro v hu
        simp [hu, mergeNullable]
      · intro hu
        simp [hu, mergeNullable]
      · intro v hu
        simp [hu, mergeNullable]
    next => simp at h

/-- C3 (witness): the merge equations of the claim's own example, on the
stored `severe` Allergy: `reaction:"Rash"` keeps severity `severe` and sets
the reaction; explicit-null reaction clears it; both via the theorem. -/
theorem c3_tristate_merge_witness :
    sampleAllergy.applyUpdate { reaction := some (some "Rash") }
      = some { sampleAllergy with reaction := some "Rash" } ∧
    sampleAllergy.applyUpdate { reaction := some none }
      = some { sampleAllergy with reaction := none } ∧
    ({ sampleAllergy with reaction := some "Rash" } : AllergyRead).severity
      = .severe ∧
    ({ sampleAllergy with reaction := some "Rash" } : AllergyRead).severity
      = sampleAllergy.severity :=
  ⟨(c3_tristate_merge.1 sampleAllergy).1,
   (c3_tristate_merge.1 sampleAllergy).2.1,
   (c3_tristate_merge.2 sampleAllergy
      { sampleAllergy with reaction := some "Rash" }
      { reaction := some (some "Rash") }
      (c3_tristate_merge.1 sampleAllergy).1).2.2.2.2.1 rfl ▸ rfl,
   (c3_tristate_merge.2 sampleAllergy
      { sampleAllergy with reaction := some "Rash" }
      { reaction := some (some "Rash") }
      (c3_tristate_merge.1 sampleAllergy).1).2.2.2.2.1 rfl⟩

/-! ## C4 — referential integrity of dependent creates -/

/-- C4: creating an Allergy or Medication whose `person_id` is not a key of
the Person store fails with the referential-integrity error and returns the
dependent store unchanged (nothing added); when the `person_id` is present,
this check never fires (a UUID is always truthy in Python, so the guard
reduces to the membership test alone). -/
theorem c4_referential_integrity :
    (∀ (persons : Store PersonRead) (st : Store AllergyRead)
      (a : AllergyCreate) (now : Nat),
      (persons.contains a.person_id = false →
        create_allergy persons st a now = (.error .refViolation, st)) ∧
      (persons.contains a.person_id = true →
        (create_allergy persons st a now).1 ≠ .error .refViolation)) ∧
    (∀ (persons : Store PersonRead) (st : Store MedicationRead)
      (m : MedicationCreate) (now : Nat),
      (persons.contains m.person_id = false →
        create_medication persons st m now = (.error .refViolation, st)) ∧
      (persons.contains m.person_id = true →
        (create_medication persons st m now).1 ≠ .error .refViolation)) := by
  constructor
  · intro persons st a now
    constructor
    · intro h
      unfold create_allergy
      rw [if_pos (by simp [pyUuidTruthy, h])]
    · intro h
      unfold create_allergy
      rw [if_neg (by simp [pyUuidTruthy, h])]
      by_cases hid : st.contains a.id
      · rw [if_pos hid]
        simp
      · rw [if_neg hid]
        simp
  · intro persons st m now
    constructor
    · intro h
      unfold create_medication
      rw [if_pos (by simp [pyUuidTruthy, h])]
    · intro h
      unfold create_medication
      rw [if_neg (by simp [pyUuidTruthy, h])]
      by_cases hid : st.contains m.id
      · rw [if_pos hid]
        simp
      · rw [if_neg hid]
        simp

/-- C4 (witness): against an empty Person store the sample dependent
creates fail with the referential error and leave their stores unchanged;
against the store holding the owner, the check does not fire. -/
theorem c4_referential_integrity_witness :
    create_allergy (Store.empty : Store PersonRead) allergiesOne
      sampleAllergyCreate 9 = (.error .refViolation, allergiesOne) ∧
    create_medication (Store.empty : Store PersonRead) medicationsOne
      sampleMedCreate 9 = (.error .refViolation, medicationsOne) ∧
    (create_allergy personsOne Store.empty sampleAllergyCreate 9).1
      ≠ .error .refViolation ∧
    (create_medication personsOne Store.empty sampleMedCreate 9).1
      ≠ .error .refViolation :=
  ⟨(c4_referential_integrity.1 Store.empty allergiesOne
      sampleAllergyCreate 9).1 (by decide),
   (c4_referential_integrity.2 Store.empty medicationsOne
      sampleMedCreate 9).1 (by decide),
   (c4_referential_integrity.1 personsOne Store.empty
      sampleAllergyCreate 9).2 (by decide),
   (c4_referential_integrity.2 personsOne Store.empty
      sampleMedCreate 9).2 (by decide)⟩

/-! ## C5 — conjunctive equality filters -/

/-- A second sample Medication with both optional dates null. -/
def sampleMedNoDates : MedicationRead :=
  { id := 9, person_id := 7, name := "Ibuprofen", dose := none,
    dose_unit := none, frequency := .as_needed, instructions := none,
    start_date := none, end_date := none, is_current := false,
    created_at := 3, updated_at := 3 }

/-- A Medication store holding `sampleMed` then `sampleMedNoDates`. -/
def medicationsTwo : Store MedicationRead :=
  ⟨[(4, sampleMed), (9, sampleMedNoDates)]⟩

/-- C5: a record is in a filtered list iff it is in the store and passes
every supplied equality predicate (conjunctive semantics), and a record
whose optional date field is null is excluded whenever that field is
filtered on. -/
theorem c5_conjunctive_filters :
    (∀ (st : Store MedicationRead) (person_id : Option Nat)
      (name frequency : Option String) (is_current : Option Bool)
      (start_date end_date : Option String) (m : MedicationRead),
      m ∈ list_medications st person_id name frequency is_current
        start_date end_date ↔
      m ∈ st.values ∧
        medicationMatches person_id name frequency is_current
          start_date end_date m = true) ∧
    (∀ (st : Store AllergyRead) (person_id : Option Nat)
      (allergen allergy_type severity noted_date : Option String)
      (a : AllergyRead),
      a ∈ list_allergies st person_id allergen allergy_type severity
        noted_date ↔
      a ∈ st.values ∧
        allergyMatches person_id allergen allergy_type severity
          noted_date a = true) ∧
    (∀ (st : Store MedicationRead) (person_id : Option Nat)
      (name frequency : Option String) (is_current : Option Bool)
      (q : String) (end_date : Option String) (m : MedicationRead),
      m.start_date = none →
      m ∉ list_medications st person_id name frequency is_current
        (some q) end_date) ∧
    (∀ (st : Store MedicationRead) (person_id : Option Nat)
      (name frequency : Option String) (is_current : Option Bool)
      (start_date : Option String) (q : String) (m : MedicationRead),
      m.end_date = none →
      m ∉ list_medications st person_id name frequency is_current
        start_date (some q)) ∧
    (∀ (st : Store AllergyRead) (person_id : Option Nat)
      (allergen allergy_type severity : Option String) (q : String)
      (a : AllergyRead),
      a.noted_date = none →
      a ∉ list_allergies st person_id allergen allergy_type severity
        (some q)) := by
  refine ⟨?_, ?_, ?_, ?_, ?_⟩
  · intro st pid nm fr ic sd ed m
    simp only [list_medications, mem_pyFilter, medicationMatches,
      Bool.and_eq_true]
    tauto
  · intro st pid al ty sv nd a
    simp only [list_allergies, mem_pyFilter, allergyMatches,
      Bool.and_eq_true]
    tauto
  · intro st pid nm fr ic q ed m h hmem
    simp [list_medications, mem_pyFilter, optMatches, h] at hmem
  · intro st pid nm fr ic sd q m h hmem
    simp [list_medications, mem_pyFilter, optMatches, h] at hmem
  · intro st pid al ty sv q a h hmem
    simp [list_allergies, mem_pyFilter, optMatches, h] at hmem

/-- C5 (witness): the null-date exclusions and the characterization at
concrete stores — `sampleMedNoDates` is never returned when either date is
filtered on, and `sampleAllergy` (null `noted_date`) is excluded by any
`noted_date` filter. -/
theorem c5_conjunctive_filters_witness :
    sampleMedNoDates ∉ list_medications medicationsTwo none none none none
      (some "2025-03-01") none ∧
    sampleMedNoDates ∉ list_medications medicationsTwo none none none none
      none (some "2025-02-10") ∧
    sampleAllergy ∉ list_allergies allergiesOne none none none none
      (some "2023-05-20") ∧
    (sampleMed ∈ list_medications medicationsTwo none (some "Loratadine")
      none (some true) none none ↔
      sampleMed ∈ medicationsTwo.values ∧
        medicationMatches none (some "Loratadine") none (some true)
          none none sampleMed = true) :=
  ⟨c5_conjunctive_filters.2.2.1 medicationsTwo none none none none
      "2025-03-01" none sampleMedNoDates rfl,
   c5_conjunctive_filters.2.2.2.1 medicationsTwo none none none none
      none "2025-02-10" sampleMedNoDates rfl,
   c5_conjunctive_filters.2.2.2.2 allergiesOne none none none none
      "2023-05-20" sampleAllergy rfl,
   c5_conjunctive_filters.1 medicationsTwo none (some "Loratadine") none
      (some true) none none sampleMed⟩

/-! ## C6 — existential filter over embedded addresses -/

/-- C6: a `city` (or `country`) filter on `list_persons` keeps a Person iff
at least one element of that Person's embedded address sequence has the
exact supplied value; `samplePerson` (embedded cities NYC then SF) is
returned for `city=SF` and `city=NYC` but not `city=LA`. -/
theorem c6_existential_address_filter :
    (∀ (st : Store PersonRead) (c : String) (p : PersonRead),
      p ∈ list_persons st none none none none none none (some c) none ↔
        p ∈ st.values ∧
          p.addresses.any (fun addr => addr.city == c) = true) ∧
    (∀ (st : Store PersonRead) (c : String) (p : PersonRead),
      p ∈ list_persons st none none none none none none none (some c) ↔
        p ∈ st.values ∧
          p.addresses.any (fun addr => addr.country == c) = true) ∧
    samplePerson ∈
      list_persons personsOne none none none none none none (some "SF") none ∧
    samplePerson ∈
      list_persons personsOne none none none none none none (some "NYC") none ∧
    samplePerson ∉
      list_persons personsOne none none none none none none (some "LA") none := by
  refine ⟨?_, ?_, ?_, ?_, ?_⟩
  · intro st c p
    simp [list_persons, mem_pyFilter, optMatches, pyFilter]
  · intro st c p
    simp [list_persons, mem_pyFilter, optMatches, pyFilter]
  · decide
  · decide
  · decide

/-- C6 (witness): the characterization applied at the concrete store —
membership for `city=SF` follows from the existential over the embedded
sequence. -/
theorem c6_existential_address_filter_witness :
    samplePerson ∈
      list_persons personsOne none none none none none none (some "SF") none :=
  (c6_existential_address_filter.1 personsOne "SF" samplePerson).mpr
    (by decide)

/-! ## C7 — insertion order, stable positions, no removal -/

/-- Every filtered Address listing is an order-preserving subsequence of
the store's value sequence. -/
theorem list_addresses_sublist (st : Store AddressRead)
    (q1 q2 q3 q4 q5 : Option String) :
    (list_addresses st q1 q2 q3 q4 q5).Sublist st.values :=
  ((((pyFilter_sublist _ _ _).trans (pyFilter_sublist _ _ _)).trans
    (pyFilter_sublist _ _ _)).trans (pyFilter_sublist _ _ _)).trans
    (pyFilter_sublist _ _ _)

/-- Every filtered Person listing is an order-preserving subsequence of
the store's value sequence. -/
theorem list_persons_sublist (st : Store PersonRead)
    (q1 q2 q3 q4 q5 q6 q7 q8 : Option String) :
    (list_persons st q1 q2 q3 q4 q5 q6 q7 q8).Sublist st.values :=
  (((((((pyFilter_sublist _ _ _).trans (pyFilter_sublist _ _ _)).trans
    (pyFilter_sublist _ _ _)).trans (pyFilter_sublist _ _ _)).trans
    (pyFilter_sublist _ _ _)).trans (pyFilter_sublist _ _ _)).trans
    (pyFilter_sublist _ _ _)).trans (pyFilter_sublist _ _ _)

/-- Every filtered Allergy listing is an order-preserving subsequence of
the store's value sequence. -/
theorem list_allergies_sublist (st : Store AllergyRead)
    (pid : Option Nat) (q1 q2 q3 q4 : Option String) :
    (list_allergies st pid q1 q2 q3 q4).Sublist st.values :=
  (((pyFilter_sublist _ _ _).trans (pyFilter_sublist _ _ _)).trans
    (pyFilter_sublist _ _ _)).trans
    ((pyFilter_sublist _ _ _).trans (pyFilter_sublist _ _ _))

/-- Every filtered Medication listing is an order-preserving subsequence
of the store's value sequence. -/
theorem list_medications_sublist (st : Store MedicationRead)
    (pid : Option Nat) (q1 q2 : Option String) (ic : Option Bool)
    (q3 q4 : Option String) :
    (list_medications st pid q1 q2 ic q3 q4).Sublist st.values :=
  ((((pyFilter_sublist _ _ _).trans (pyFilter_sublist _ _ _)).trans
    (pyFilter_sublist _ _ _)).trans (pyFilter_sublist _ _ _)).trans
    ((pyFilter_sublist _ _ _).trans (pyFilter_sublist _ _ _))

/-- C7: across any sequence of requests each store's key sequence only
ever grows at the end (old keys keep their order and positions, nothing is
removed); a PATCH never changes any store's key sequence at all; an
unfiltered list returns exactly the store's records in insertion order;
and every filtered list is an order-preserving subsequence of that. -/
theorem c7_insertion_order_stability :
    (∀ (s : AppState) (ops : List Op),
      s.persons.keys.Sublist ((runOps s ops).persons.keys) ∧
      s.addresses.keys.Sublist ((runOps s ops).addresses.keys) ∧
      s.allergies.keys.Sublist ((runOps s ops).allergies.keys) ∧
      s.medications.keys.Sublist ((runOps s ops).medications.keys)) ∧
    (∀ (st : Store PersonRead) (id : Nat) (u : PersonUpdate),
      ((update_person st id u).2).keys = st.keys) ∧
    (∀ (st : Store AddressRead) (id : Nat) (u : AddressUpdate),
      ((update_address st id u).2).keys = st.keys) ∧
    (∀ (st : Store AllergyRead) (id : Nat) (u : AllergyUpdate),
      ((update_allergy st id u).2).keys = st.keys) ∧
    (∀ (st : Store MedicationRead) (id : Nat) (u : MedicationUpdate),
      ((update_medication st id u).2).keys = st.keys) ∧
    (∀ (st : Store AddressRead) (q1 q2 q3 q4 q5 : Option String),
      (list_addresses st q1 q2 q3 q4 q5).Sublist st.values) ∧
    (∀ (st : Store PersonRead) (q1 q2 q3 q4 q5 q6 q7 q8 : Option String),
      (list_persons st q1 q2 q3 q4 q5 q6 q7 q8).Sublist st.values) ∧
    (∀ (st : Store AllergyRead) (pid : Option Nat)
      (q1 q2 q3 q4 : Option String),
      (list_allergies st pid q1 q2 q3 q4).Sublist st.values) ∧
    (∀ (st : Store MedicationRead) (pid : Option Nat)
      (q1 q2 : Option String) (ic : Option Bool) (q3 q4 : Option String),
      (list_medications st pid q1 q2 ic q3 q4).Sublist st.values) ∧
    (∀ (st : Store AddressRead),
      list_addresses st none none none none none = st.values) ∧
    (∀ (st : Store PersonRead),
      list_persons st none none none none none none none none = st.values) ∧
    (∀ (st : Store AllergyRead),
      list_allergies st none none none none none = st.values) ∧
    (∀ (st : Store MedicationRead),
      list_medications st none none none none none none = st.values) :=
  ⟨runOps_keys_mono, update_person_keys, update_address_keys,
   update_allergy_keys, update_medication_keys, list_addresses_sublist,
   list_persons_sublist, list_allergies_sublist, list_medications_sublist,
   fun _ => rfl, fun _ => rfl, fun _ => rfl, fun _ => rfl⟩

/-! ## C8 — create-then-read round trip -/

/-- Reading a Person back right after writing it returns it. -/
theorem get_person_set_self (st : Store PersonRead) (k : Nat)
    (v : PersonRead) : get_person (st.set k v) k = .ok v := by
  unfold get_person
  rw [Store.get?_set_self]

/-- C8: for every kind, a successful create (fresh identifier; for the
dependent kinds, a resolvable owner) returns and stores exactly the record
built from the payload's fields, readable back by its identifier, with
`created_at = updated_at` assigned the request instant `now` — hence both
at or after the moment the call began. -/
theorem c8_create_read_round_trip :
    (∀ (persons : Store PersonRead) (st : Store AllergyRead)
      (a : AllergyCreate) (now : Nat),
      persons.contains a.person_id = true → st.contains a.id = false →
      (create_allergy persons st a now).1 = .ok (AllergyRead.ofCreate a now) ∧
      get_allergy (create_allergy persons st a now).2 a.id
        = .ok (AllergyRead.ofCreate a now) ∧
      (AllergyRead.ofCreate a now).id = a.id ∧
      (AllergyRead.ofCreate a now).person_id = a.person_id ∧
      (AllergyRead.ofCreate a now).allergen = a.allergen ∧
      (AllergyRead.ofCreate a now).allergy_type = a.allergy_type ∧
      (AllergyRead.ofCreate a now).reaction = a.reaction ∧
      (AllergyRead.ofCreate a now).severity = a.severity ∧
      (AllergyRead.ofCreate a now).noted_date = a.noted_date ∧
      (AllergyRead.ofCreate a now).created_at
        = (AllergyRead.ofCreate a now).updated_at ∧
      now ≤ (AllergyRead.ofCreate a now).created_at) ∧
    (∀ (persons : Store PersonRead) (st : Store MedicationRead)
      (m : MedicationCreate) (now : Nat),
      persons.contains m.person_id = true → st.contains m.id = false →
      (create_medication persons st m now).1
        = .ok (MedicationRead.ofCreate m now) ∧
      get_medication (create_medication persons st m now).2 m.id
        = .ok (MedicationRead.ofCreate m now) ∧
      (MedicationRead.ofCreate m now).id = m.id ∧
      (MedicationRead.ofCreate m now).person_id = m.person_id ∧
      (MedicationRead.ofCreate m now).name = m.name ∧
      (MedicationRead.ofCreate m now).dose = m.dose ∧
      (MedicationRead.ofCreate m now).dose_unit = m.dose_unit ∧
      (MedicationRead.ofCreate m now).frequency = m.frequency ∧
      (MedicationRead.ofCreate m now).instructions = m.instructions ∧
      (MedicationRead.ofCreate m now).start_date = m.start_date ∧
      (MedicationRead.ofCreate m now).end_date = m.end_date ∧
      (MedicationRead.ofCreate m now).is_current = m.is_current ∧
      (MedicationRead.ofCreate m now).created_at
        = (MedicationRead.ofCreate m now).updated_at ∧
      now ≤ (MedicationRead.ofCreate m now).created_at) ∧
    (∀ (st : Store AddressRead) (a : AddressCreate) (now : Nat),
      st.contains a.id = false →
      (create_address st a now).1 = .ok (AddressRead.ofCreate a now) ∧
      get_address (create_address st a now).2 a.id
        = .ok (AddressRead.ofCreate a now) ∧
      (AddressRead.ofCreate a now).id = a.id ∧
      (AddressRead.ofCreate a now).street = a.street ∧
      (AddressRead.ofCreate a now).city = a.city ∧
      (AddressRead.ofCreate a now).state = a.state ∧
      (AddressRead.ofCreate a now).postal_code = a.postal_code ∧
      (AddressRead.ofCreate a now).country = a.country ∧
      (AddressRead.ofCreate a now).created_at
        = (AddressRead.ofCreate a now).updated_at ∧
      now ≤ (AddressRead.ofCreate a now).created_at) ∧
    (∀ (st : Store PersonRead) (p : PersonCreate) (now : Nat),
      (create_person st p now).1 = .ok (PersonRead.ofCreate p now) ∧
      get_person (create_person st p now).2 p.id
        = .ok (PersonRead.ofCreate p now) ∧
      (PersonRead.ofCreate p now).id = p.id ∧
      (PersonRead.ofCreate p now).uni = p.uni ∧
      (PersonRead.ofCreate p now).first_name = p.first_name ∧
      (PersonRead.ofCreate p now).last_name = p.last_name ∧
      (PersonRead.ofCreate p now).email = p.email ∧
      (PersonRead.ofCreate p now).phone = p.phone ∧
      (PersonRead.ofCreate p now).birth_date = p.birth_date ∧
      (PersonRead.ofCreate p now).addresses = p.addresses ∧
      (PersonRead.ofCreate p now).created_at
        = (PersonRead.ofCreate p now).updated_at ∧
      now ≤ (PersonRead.ofCreate p now).created_at) := by
  refine ⟨?_, ?_, ?_, ?_⟩
  · intro persons st a now hp hid
    unfold create_allergy
    rw [if_neg (by simp [pyUuidTruthy, hp]), if_neg (by simp [hid])]
    refine ⟨rfl, ?_, rfl, rfl, rfl, rfl, rfl, rfl, rfl, rfl, Nat.le_refl now⟩
    unfold get_allergy
    rw [Store.get?_set_self]
  · intro persons st m now hp hid
    unfold create_medication
    rw [if_neg (by simp [pyUuidTruthy, hp]), if_neg (by simp [hid])]
    refine ⟨rfl, ?_, rfl, rfl, rfl, rfl, rfl, rfl, rfl, rfl, rfl, rfl, rfl,
      Nat.le_refl now⟩
    unfold get_medication
    rw [Store.get?_set_self]
  · intro st a now hid
    unfold create_address
    rw [if_neg (by simp [hid])]
    refine ⟨rfl, ?_, rfl, rfl, rfl, rfl, rfl, rfl, rfl, Nat.le_refl now⟩
    unfold get_address
    rw [Store.get?_set_self]
  · intro st p now
    unfold create_person
    refine ⟨rfl, ?_, rfl, rfl, rfl, rfl, rfl, rfl, rfl, rfl, rfl,
      Nat.le_refl now⟩
    exact get_person_set_self st p.id (PersonRead.ofCreate p now)

/-- C8 (witness): the round trip at a concrete create — the sample Allergy
payload created at instant 3 into an empty store, read back by id 1. -/
theorem c8_create_read_round_trip_witness :
    get_allergy (create_allergy personsOne (Store.empty : Store AllergyRead)
      sampleAllergyCreate 3).2 1
      = .ok (AllergyRead.ofCreate sampleAllergyCreate 3) :=
  (c8_create_read_round_trip.1 personsOne Store.empty sampleAllergyCreate 3
    (by decide) (by decide)).2.1

/-! ## C9 — fields immutable under partial update -/

/-- C9: the update payload schemas for Allergy and Medication carry no
`id`, `person_id` or `created_at` field, so every successful merge copies
those three values through from the stored record unchanged. -/
theorem c9_immutable_fields :
    (∀ (stored merged : AllergyRead) (u : AllergyUpdate),
      stored.applyUpdate u = some merged →
      merged.id = stored.id ∧ merged.person_id = stored.person_id ∧
      merged.created_at = stored.created_at) ∧
    (∀ (stored merged : MedicationRead) (u : MedicationUpdate),
      stored.applyUpdate u = some merged →
      merged.id = stored.id ∧ merged.person_id = stored.person_id ∧
      merged.created_at = stored.created_at) := by
  constructor
  · intro stored merged u h
    unfold AllergyRead.applyUpdate at h
    split at h
    next al ty sv hal hty hsv =>
      injection h with h
      subst h
      exact ⟨rfl, rfl, rfl⟩
    next => simp at h
  · intro stored merged u h
    unfold MedicationRead.applyUpdate at h
    split at h
    next nm fr ic hnm hfr hic =>
      injection h with h
      subst h
      exact ⟨rfl, rfl, rfl⟩
    next => simp at h

/-- C9 (witness): concrete merges that do change mutable fields leave
`id`, `person_id` and `created_at` of the samples untouched. -/
theorem c9_immutable_fields_witness :
    (({ sampleAllergy with reaction := some "Rash" } : AllergyRead).id
        = sampleAllergy.id ∧
      ({ sampleAllergy with reaction := some "Rash" } : AllergyRead).person_id
        = sampleAllergy.person_id ∧
      ({ sampleAllergy with reaction := some "Rash" } : AllergyRead).created_at
        = sampleAllergy.created_at) ∧
    (({ sampleMed with is_current := false } : MedicationRead).id
        = sampleMed.id ∧
      ({ sampleMed with is_current := false } : MedicationRead).person_id
        = sampleMed.person_id ∧
      ({ sampleMed with is_current := false } : MedicationRead).created_at
        = sampleMed.created_at) :=
  ⟨c9_immutable_fields.1 sampleAllergy
      { sampleAllergy with reaction := some "Rash" }
      { reaction := some (some "Rash") } rfl,
   c9_immutable_fields.2 sampleMed
      { sampleMed with is_current := false }
      { is_current := some (some false) } rfl⟩

/-! ## C10 — explicit null into a non-nullable field -/

/-- C10: the payloads writing an explicit null into `severity`,
`allergy_type` or `allergen` are well-typed `AllergyUpdate` values (every
schema field is optional), yet re-validating the merged record fails, the
handler reports the validation failure, and the store — including the
record under the targeted identifier — is returned exactly as it was. -/
theorem c10_explicit_null_rejected :
    ∀ (st : Store AllergyRead) (aid : Nat) (stored : AllergyRead),
      st.get? aid = some stored →
      update_allergy st aid { severity := some none }
        = (.error .validationError, st) ∧
      update_allergy st aid { allergy_type := some none }
        = (.error .validationError, st) ∧
      update_allergy st aid { allergen := some none }
        = (.error .validationError, st) := by
  intro st aid stored h
  unfold update_allergy
  rw [h]
  exact ⟨rfl, rfl, rfl⟩

/-- C10 (witness): the explicit-null payloads against the concrete store —
the call fails with the validation error and returns the store unchanged,
still holding `sampleAllergy` under identifier 1. -/
theorem c10_explicit_null_rejected_witness :
    update_allergy allergiesOne 1 { severity := some none }
      = (.error .validationError, allergiesOne) ∧
    allergiesOne.get? 1 = some sampleAllergy :=
  ⟨(c10_explicit_null_rejected allergiesOne 1 sampleAllergy (by decide)).1,
   by decide⟩
